import Mathlib

set_option maxRecDepth 8000

/-!
Verification of the quiz-solver service: a shallow embedding of the JSON
recovery layer (app/llm.py), the submission-endpoint discovery and chain
driver (app/solver.py), and the HTTP endpoint dispatch (app/main.py),
with theorems settling the specification claims.
-/

namespace QuizSolver

/-- Characters Python treats as whitespace for str.strip and the regex
class backslash-s (ASCII subset: space, tab, newline, carriage return,
vertical tab, form feed). -/
def pyIsWs (c : Char) : Bool :=
  c = ' ' || c = '\t' || c = '\n' || c = '\r' || c = '\x0b' || c = '\x0c'

/-- Python str.strip on a character list. -/
def pyStripList (cs : List Char) : List Char :=
  ((cs.dropWhile pyIsWs).reverse.dropWhile pyIsWs).reverse

/-- Python str.strip(). -/
def pyStrip (s : String) : String := String.mk (pyStripList s.toList)

/-- Python str.lower (ASCII portion, which is all the sources exercise). -/
def pyLower (s : String) : String := String.mk (s.toList.map Char.toLower)

/-- Whether pat occurs as a prefix of hay. -/
def listHasPrefix (pat hay : List Char) : Bool :=
  match pat, hay with
  | [], _ => true
  | _ :: _, [] => false
  | p :: ps, h :: hs => p = h && listHasPrefix ps hs

/-- Whether pat occurs as a contiguous run inside hay. -/
def listHasInfix (pat hay : List Char) : Bool :=
  match hay with
  | [] => pat.isEmpty
  | _ :: hs => listHasPrefix pat hay || listHasInfix pat hs

/-- Python substring containment: pat in hay. -/
def containsSub (hay pat : String) : Bool := listHasInfix pat.toList hay.toList

/-- Python str.startswith. -/
def strStartsWith (s pre : String) : Bool := listHasPrefix pre.toList s.toList

/-- A single-quote character, used when spelling Python KeyError messages. -/
def squote : String := String.mk [Char.ofNat 39]

/-- JSON values as produced by Python json.loads: null, booleans, integer
numbers, non-integer numbers (kept as their literal text), strings, arrays
and objects (insertion-ordered key-value lists, later duplicates
overwriting in place as Python dict does). -/
inductive J where
  | null
  | bool (b : Bool)
  | num (n : Int)
  | numF (lit : String)
  | str (s : String)
  | arr (elts : List J)
  | obj (fields : List (String × J))

/-- Zero test for a non-integer numeric literal (mantissa has no nonzero
digit), mirroring Python float truthiness for parsed JSON numbers. -/
def zeroLit (s : String) : Bool :=
  let cs := s.toList
  let cs := if cs.head? = some '-' then cs.tail else cs
  let mant := cs.takeWhile (fun c => c ≠ 'e' && c ≠ 'E')
  mant.all (fun c => c = '0' || c = '.')

/-- Python truthiness of a JSON-parsed value: None and False are falsy,
numbers are falsy exactly when zero, strings/arrays/objects are falsy
exactly when empty. -/
def J.truthy : J → Bool
  | .null => false
  | .bool b => b
  | .num n => n != 0
  | .numF lit => !zeroLit lit
  | .str s => !s.isEmpty
  | .arr xs => !xs.isEmpty
  | .obj kvs => !kvs.isEmpty

/-- Whether a value is a mapping (Python dict). -/
def J.isObj : J → Bool
  | .obj _ => true
  | _ => false

/-- Python dict as an insertion-ordered association list. -/
abbrev Jdict : Type := List (String × J)

/-- Python dict.get: the value at a key, if present (first occurrence). -/
def dget (d : Jdict) (k : String) : Option J :=
  (d.find? (fun p => p.1 == k)).map (fun p => p.2)

/-- Python dict insertion: overwrite in place if the key exists, else
append at the end. -/
def pyInsert (d : Jdict) (k : String) (v : J) : Jdict :=
  match d with
  | [] => [(k, v)]
  | (k0, v0) :: rest => if k0 = k then (k0, v) :: rest else (k0, v0) :: pyInsert rest k v

/-- Whitespace accepted between tokens by Python json.loads. -/
def jsonWs (c : Char) : Bool := c = ' ' || c = '\t' || c = '\n' || c = '\r'

/-- Hexadecimal digit value, by code point: decimal digits sit at 48-57,
lowercase a-f at 97-102, uppercase A-F at 65-70. -/
def hexVal (c : Char) : Option Nat :=
  let n := c.toNat
  if 48 ≤ n && n ≤ 57 then some (n - 48)
  else if 97 ≤ n && n ≤ 102 then some (n - 87)
  else if 65 ≤ n && n ≤ 70 then some (n - 55)
  else none

/-- Body of a JSON string literal, after the opening quote: returns the
decoded string and the remaining input after the closing quote. Escapes
follow Python json.loads in strict mode; a raw control character or an
unterminated literal is a parse error. -/
def parseStrChars (acc : List Char) : List Char → Option (String × List Char)
  | [] => none
  | '"' :: rest => some (String.mk acc.reverse, rest)
  | '\\' :: '"' :: r => parseStrChars ('"' :: acc) r
  | '\\' :: '\\' :: r => parseStrChars ('\\' :: acc) r
  | '\\' :: '/' :: r => parseStrChars ('/' :: acc) r
  | '\\' :: 'b' :: r => parseStrChars ('\x08' :: acc) r
  | '\\' :: 'f' :: r => parseStrChars ('\x0c' :: acc) r
  | '\\' :: 'n' :: r => parseStrChars ('\n' :: acc) r
  | '\\' :: 'r' :: r => parseStrChars ('\r' :: acc) r
  | '\\' :: 't' :: r => parseStrChars ('\t' :: acc) r
  | '\\' :: 'u' :: h1 :: h2 :: h3 :: h4 :: r =>
    match hexVal h1, hexVal h2, hexVal h3, hexVal h4 with
    | some a, some b, some c, some d =>
      parseStrChars (Char.ofNat (((a * 16 + b) * 16 + c) * 16 + d) :: acc) r
    | _, _, _, _ => none
  | '\\' :: _ => none
  | c :: rest => if c.toNat < 0x20 then none else parseStrChars (c :: acc) rest

/-- Accumulating decimal value of a digit run. -/
def digitsToNatGo (acc : Nat) : List Char → Nat
  | [] => acc
  | c :: rest => digitsToNatGo (acc * 10 + (c.toNat - 48)) rest

/-- Digits of a number literal to a natural number. -/
def digitsToNat (ds : List Char) : Nat := digitsToNatGo 0 ds

/-- Integer part of a JSON number: a lone zero or a nonzero digit followed
by digits (leading zeros are rejected, as in Python json). -/
def parseIntPart (cs : List Char) : Option (List Char × List Char) :=
  match cs with
  | '0' :: rest => some (['0'], rest)
  | c :: rest =>
    if c.isDigit then some (c :: rest.takeWhile Char.isDigit, rest.dropWhile Char.isDigit)
    else none
  | [] => none

/-- JSON number starting at the given input, following the strict grammar
of Python json.loads: optional minus, integer part, optional fraction,
optional exponent. Pure integers become J.num; numbers with a fraction or
exponent keep their literal text as J.numF. -/
def parseNumSigned (neg : Bool) (cs1 : List Char) : Option (J × List Char) :=
  match parseIntPart cs1 with
  | none => none
  | some (ip, r1) =>
    let (frac, r2) := match r1 with
      | '.' :: r =>
        let ds := r.takeWhile Char.isDigit
        if ds.isEmpty then ([], r1) else ('.' :: ds, r.dropWhile Char.isDigit)
      | _ => ([], r1)
    let fracFailed := match r1 with
      | '.' :: r => (r.takeWhile Char.isDigit).isEmpty
      | _ => false
    if fracFailed then none
    else
      let (ex, r3) := match r2 with
        | e :: r =>
          if e = 'e' || e = 'E' then
            let (sgn, rr) := match r with
              | s :: rest => if s = '+' || s = '-' then ([s], rest) else ([], r)
              | [] => ([], r)
            let ds := rr.takeWhile Char.isDigit
            if ds.isEmpty then ([], r2) else (e :: (sgn ++ ds), rr.dropWhile Char.isDigit)
          else ([], r2)
        | [] => ([], r2)
      if frac.isEmpty && ex.isEmpty then
        let n : Int := Int.ofNat (digitsToNat ip)
        some (J.num (if neg then -n else n), r2)
      else
        let lit := (if neg then ['-'] else []) ++ ip ++ frac ++ ex
        some (J.numF (String.mk lit), r3)

/-- JSON number: an optional leading minus, then the signed body. -/
def parseNum : List Char → Option (J × List Char)
  | '-' :: rest => parseNumSigned true rest
  | cs => parseNumSigned false cs

mutual

/-- JSON value parser (model of Python json.loads, strict mode, without
the nonstandard NaN and Infinity extensions, which the repository never
feeds it). Fuel bounds recursion depth; callers pass more fuel than any
input of that length can consume. -/
def parseVal : Nat → List Char → Option (J × List Char)
  | 0, _ => none
  | Nat.succ fuel, cs =>
    match cs.dropWhile jsonWs with
    | '{' :: rest =>
      match rest.dropWhile jsonWs with
      | '}' :: r2 => some (J.obj [], r2)
      | r2 => parseMembers fuel [] r2
    | '[' :: rest =>
      match rest.dropWhile jsonWs with
      | ']' :: r2 => some (J.arr [], r2)
      | r2 => parseElems fuel [] r2
    | '"' :: rest => (parseStrChars [] rest).map (fun p => (J.str p.1, p.2))
    | 't' :: 'r' :: 'u' :: 'e' :: rest => some (J.bool true, rest)
    | 'f' :: 'a' :: 'l' :: 's' :: 'e' :: rest => some (J.bool false, rest)
    | 'n' :: 'u' :: 'l' :: 'l' :: rest => some (J.null, rest)
    | rest => parseNum rest

/-- Members of a JSON object after the opening brace (first member not yet
consumed). -/
def parseMembers : Nat → Jdict → List Char → Option (J × List Char)
  | 0, _, _ => none
  | Nat.succ fuel, acc, cs =>
    match cs.dropWhile jsonWs with
    | '"' :: rest =>
      match parseStrChars [] rest with
      | none => none
      | some (key, r1) =>
        match r1.dropWhile jsonWs with
        | ':' :: r2 =>
          match parseVal fuel r2 with
          | none => none
          | some (v, r3) =>
            match r3.dropWhile jsonWs with
            | ',' :: r4 => parseMembers fuel (pyInsert acc key v) r4
            | '}' :: r4 => some (J.obj (pyInsert acc key v), r4)
            | _ => none
        | _ => none
    | _ => none

/-- Elements of a JSON array after the opening bracket (first element not
yet consumed). -/
def parseElems : Nat → List J → List Char → Option (J × List Char)
  | 0, _, _ => none
  | Nat.succ fuel, acc, cs =>
    match parseVal fuel cs with
    | none => none
    | some (v, r1) =>
      match r1.dropWhile jsonWs with
      | ',' :: r2 => parseElems fuel (v :: acc) r2
      | ']' :: r2 => some (J.arr (v :: acc).reverse, r2)
      | _ => none

end

/-- Python json.loads: parse a complete JSON document, allowing leading
and trailing whitespace, failing on any leftover input. -/
def json_loads (s : String) : Option J :=
  match parseVal (2 * s.length + 4) s.toList with
  | some (v, rest) => if (rest.dropWhile jsonWs).isEmpty then some v else none
  | none => none

/-!
JSON recovery utilities from app/llm.py: try_extract_json and
repair_json_string, and the escalation in llm_json.
-/

/-- Index of the first occurrence of a character. -/
def firstIdx (c : Char) (cs : List Char) : Option Nat := cs.findIdx? (fun x => x = c)

/-- Index of the last occurrence of a character. -/
def lastIdx (c : Char) (cs : List Char) : Option Nat :=
  match (cs.reverse.findIdx? (fun x => x = c)) with
  | some k => some (cs.length - 1 - k)
  | none => none

/-- try_extract_json from app/llm.py: the regex searches for a brace,
anything, a closing brace, so the leftmost-greedy match runs from the
first opening brace to the last closing brace after it; that span is then
parsed, any failure yielding None. -/
def try_extract_json (text : String) : Option J :=
  let cs := text.toList
  match firstIdx '{' cs, lastIdx '}' cs with
  | some i, some j =>
    if i < j then json_loads (String.mk ((cs.drop i).take (j - i + 1))) else none
  | _, _ => none

/-- Removal of the characters matched by the regex class x00-x1F. -/
def stripCtrl (cs : List Char) : List Char := cs.filter (fun c => !decide (c.toNat ≤ 0x1f))

/-- Left-to-right, non-overlapping substitution of a comma, optional
whitespace, then the given closing character, by the closing character
alone — the regex sub of comma-whitespace-close used on braces and
brackets in repair_json_string. Fuel equals the input length, which each
step consumes at least one character against, so it never runs out. -/
def subTrailingGo (close : Char) : Nat → List Char → List Char
  | 0, cs => cs
  | Nat.succ _, [] => []
  | Nat.succ fuel, c :: rest =>
    if c = ',' then
      match rest.dropWhile pyIsWs with
      | c2 :: r2 =>
        if c2 = close then close :: subTrailingGo close fuel r2
        else c :: subTrailingGo close fuel rest
      | [] => c :: subTrailingGo close fuel rest
    else c :: subTrailingGo close fuel rest

/-- Trailing-comma removal before the given closing character. -/
def subTrailing (close : Char) (cs : List Char) : List Char := subTrailingGo close cs.length cs

/-- Identifier characters of the bare-key regex: letters, digits,
underscore. -/
def isIdentChar (c : Char) : Bool := c.isAlphanum || c = '_'

/-- Attempt to match, after an opening brace or comma, the rest of the
bare-key pattern: optional whitespace, a nonempty identifier, optional
whitespace, then a colon. Returns the identifier and the input after the
colon. -/
def tryKeyMatch (cs : List Char) : Option (List Char × List Char) :=
  let cs1 := cs.dropWhile pyIsWs
  let ident := cs1.takeWhile isIdentChar
  if ident.isEmpty then none
  else
    match (cs1.dropWhile isIdentChar).dropWhile pyIsWs with
    | ':' :: r => some (ident, r)
    | _ => none

/-- Left-to-right, non-overlapping substitution quoting bare identifier
keys: a brace or comma, whitespace, identifier, whitespace, colon becomes
the brace or comma, a space, the identifier in double quotes, and the
colon, exactly as the replacement template in repair_json_string. -/
def quoteKeysGo : Nat → List Char → List Char
  | 0, cs => cs
  | Nat.succ _, [] => []
  | Nat.succ fuel, c :: rest =>
    if c = '{' || c = ',' then
      match tryKeyMatch rest with
      | some (ident, r) =>
        c :: ' ' :: '"' :: (ident ++ '"' :: ':' :: quoteKeysGo fuel r)
      | none => c :: quoteKeysGo fuel rest
    else c :: quoteKeysGo fuel rest

/-- Bare-key quoting pass. -/
def quoteKeys (cs : List Char) : List Char := quoteKeysGo cs.length cs

/-- repair_json_string from app/llm.py: strip the text, delete control
characters, remove trailing commas before closing braces and brackets,
quote bare identifier keys, then parse; None on parse failure. -/
def repair_json_string (text : String) : Option J :=
  let fixed := pyStripList text.toList
  let fixed := stripCtrl fixed
  let fixed := subTrailing '}' fixed
  let fixed := subTrailing ']' fixed
  let fixed := quoteKeys fixed
  json_loads (String.mk fixed)

/-- Escalation tail of llm_json after a failed direct parse: a truthy
extraction is returned, else a truthy repair, else the empty mapping. -/
def llm_json_fallback (text : String) : J :=
  match try_extract_json text with
  | some v =>
    if v.truthy then v
    else
      match repair_json_string text with
      | some w => if w.truthy then w else J.obj []
      | none => J.obj []
  | none =>
    match repair_json_string text with
    | some w => if w.truthy then w else J.obj []
    | none => J.obj []

/-- llm_json from app/llm.py applied to the text obtained from the model:
direct json.loads first (whose value is returned whatever its shape),
then try_extract_json, then repair_json_string, then the empty mapping. -/
def llm_json_of_text (text : String) : J :=
  match json_loads text with
  | some v => v
  | none => llm_json_fallback text

/-!
Model invocation client from app/llm.py: chat message list, candidate
extraction from the provider response, and the accumulating retry loop of
ask_llm_for_answer, with the provider call abstracted as an oracle from
the current message list to a response or a raised error.
-/

/-- A chat message. -/
structure Msg where
  role : String
  content : String

/-- The fixed system instruction of ask_llm_for_answer. -/
def systemMsg : Msg := ⟨"system", "When asked for JSON, ALWAYS return valid JSON only."⟩

/-- The initial message list built for a prompt. -/
def initMessages (prompt : String) : List Msg := [systemMsg, ⟨"user", prompt⟩]

/-- The nudge turn appended after an unsuccessful attempt. -/
def nudgeMsg : Msg := ⟨"user", "Return JSON now."⟩

/-- Lowercase hexadecimal digit. -/
def hexDigit (n : Nat) : Char :=
  if n < 10 then Char.ofNat ('0'.toNat + n) else Char.ofNat ('a'.toNat + n - 10)

/-- Four-digit lowercase hexadecimal. -/
def hex4 (n : Nat) : String :=
  String.mk [hexDigit (n / 4096 % 16), hexDigit (n / 256 % 16), hexDigit (n / 16 % 16), hexDigit (n % 16)]

/-- Escaping of one character in a serialized JSON string, as Python
json.dumps with its default ensure_ascii (characters beyond the basic
multilingual plane, which the repository never serializes, are out of the
model scope). -/
def escChar (c : Char) : String :=
  if c = '"' then "\\\""
  else if c = '\\' then "\\\\"
  else if c = '\n' then "\\n"
  else if c = '\r' then "\\r"
  else if c = '\t' then "\\t"
  else if c = '\x08' then "\\b"
  else if c = '\x0c' then "\\f"
  else if c.toNat < 0x20 || c.toNat > 0x7e then "\\u" ++ hex4 c.toNat
  else String.mk [c]

/-- Serialized JSON string literal. -/
def jdumpStr (s : String) : String :=
  "\"" ++ String.join (s.toList.map escChar) ++ "\""

mutual

/-- Python json.dumps with default separators, used by the defensive
fallback branch of ask_llm_for_answer when the provider response has no
choices key. -/
def jdump : J → String
  | .null => "null"
  | .bool true => "true"
  | .bool false => "false"
  | .num n => toString n
  | .numF lit => lit
  | .str s => jdumpStr s
  | .arr xs => "[" ++ String.intercalate ", " (jdumpElems xs) ++ "]"
  | .obj kvs => "\x7b" ++ String.intercalate ", " (jdumpFields kvs) ++ "\x7d"

/-- Serialization of array elements. -/
def jdumpElems : List J → List String
  | [] => []
  | v :: rest => jdump v :: jdumpElems rest

/-- Serialization of object members. -/
def jdumpFields : List (String × J) → List String
  | [] => []
  | (k, v) :: rest => (jdumpStr k ++ ": " ++ jdump v) :: jdumpFields rest

end

/-- Equality of a JSON value with a string, as Python == inside a list
membership test over JSON-parsed data. -/
def jeqStr (v : J) (s : String) : Bool :=
  match v with
  | .str t => t == s
  | _ => false

/-- Python membership test key in value: key lookup for dicts, element
equality for lists, substring for strings, and a TypeError (none) for the
remaining JSON shapes. -/
def pyContainsKey (v : J) (k : String) : Option Bool :=
  match v with
  | .obj d => some (d.any (fun p => p.1 == k))
  | .arr xs => some (xs.any (fun x => jeqStr x k))
  | .str s => some (containsSub s k)
  | _ => none

/-- Candidate-text extraction of ask_llm_for_answer from a provider
response: when choices is present the first choice message content is
taken (any shape deviation raises inside the enclosing try and is caught
by the retry loop, so it is reported here as an error whose text is only
ever logged); otherwise the whole response is serialized. -/
def extract_out (resp : J) : Except String String :=
  match pyContainsKey resp "choices" with
  | none => Except.error "TypeError"
  | some false => Except.ok (jdump resp)
  | some true =>
    match resp with
    | J.obj d =>
      match dget d "choices" with
      | some (J.arr (c0 :: _)) =>
        match c0 with
        | J.obj cd =>
          match dget cd "message" with
          | some (J.obj md) =>
            match dget md "content" with
            | some (J.str s) => Except.ok s
            | _ => Except.error "KeyError"
          | _ => Except.error "KeyError"
        | _ => Except.error "TypeError"
      | _ => Except.error "IndexError"
    | _ => Except.error "TypeError"

/-- One attempt of the retry loop: the provider oracle is called on the
current message list (modelling call_aipipe_api after its own bounded
internal retries, which either yields a response or re-raises), and the
candidate text is extracted. -/
def attemptOutcome (api : List Msg → Except String J) (messages : List Msg) :
    Except String String :=
  match api messages with
  | Except.error e => Except.error e
  | Except.ok resp => extract_out resp

/-- The retry loop body of ask_llm_for_answer: up to fuel attempts; a
candidate that is nonempty after stripping is returned at once
(unstripped); otherwise, and on any raised error, the nudge turn is
appended to the running message list and the loop continues; exhausted
attempts return the literal two-character brace text. -/
def askAttempts (api : List Msg → Except String J) : Nat → List Msg → String
  | 0, _ => "\x7b\x7d"
  | Nat.succ fuel, messages =>
    match attemptOutcome api messages with
    | Except.ok out =>
      if pyStrip out = "" then askAttempts api fuel (messages ++ [nudgeMsg])
      else out
    | Except.error _ => askAttempts api fuel (messages ++ [nudgeMsg])

/-- ask_llm_for_answer from app/llm.py: three attempts over an
accumulating conversation seeded with the system instruction and the
prompt. -/
def ask_llm_for_answer (api : List Msg → Except String J) (prompt : String) : String :=
  askAttempts api 3 (initMessages prompt)

/-- llm_json from app/llm.py: the model text is acquired by
ask_llm_for_answer and fed through the parse and repair escalation. -/
def llm_json (api : List Msg → Except String J) (prompt : String) : J :=
  llm_json_of_text (ask_llm_for_answer api prompt)

/-!
Step solver pieces from app/solver.py: URL normalization, the three-stage
submission-endpoint discovery of find_submit, and the submission phase of
solve_single.
-/

/-- Scheme, authority and path of an absolute http or https URL. -/
def splitSchemeAuth (base : String) : Option (String × String × String) :=
  let noScheme (scheme rest : String) : String × String × String :=
    let cs := rest.toList
    (scheme, String.mk (cs.takeWhile (fun c => c ≠ '/')), String.mk (cs.dropWhile (fun c => c ≠ '/')))
  if strStartsWith base "http://" then some (noScheme "http" (String.mk (base.toList.drop 7)))
  else if strStartsWith base "https://" then some (noScheme "https" (String.mk (base.toList.drop 8)))
  else none

/-- Base path with everything after its last slash removed; an empty or
slashless path contributes a bare slash. -/
def dirOf (path : String) : String :=
  let cs := path.toList
  match lastIdx '/' cs with
  | some i => String.mk (cs.take (i + 1))
  | none => "/"

/-- Modelled from the Python standard library: urllib.parse.urljoin,
restricted to absolute http or https bases and to reference shapes
without dot segments (network-path, absolute-path and plain relative
references), which covers every join the repository performs. -/
def urljoin (base url : String) : String :=
  match splitSchemeAuth base with
  | none => url
  | some (scheme, auth, path) =>
    if url = "" then base
    else if strStartsWith url "//" then scheme ++ ":" ++ url
    else if strStartsWith url "/" then scheme ++ "://" ++ auth ++ url
    else scheme ++ "://" ++ auth ++ dirOf path ++ url

/-- normalize_url from app/solver.py: empty input gives None, a stripped
absolute http or https reference is returned unchanged, anything else is
joined onto the base. -/
def normalize_url (base raw : String) : Option String :=
  if raw = "" then none
  else
    let raw := pyStrip raw
    if strStartsWith raw "http://" || strStartsWith raw "https://" then some raw
    else some (urljoin base raw)

/-- Quote characters of the action-attribute regex class. -/
def isQuoteChar (c : Char) : Bool := c = '"' || c = Char.ofNat 39

/-- Lazy capture of the action-attribute regex after the opening quote:
the shortest run of characters other than newline up to a closing quote
of either kind. -/
def scanActionCapture : List Char → Option (List Char × List Char)
  | [] => none
  | c :: rest =>
    if isQuoteChar c then some ([], rest)
    else if c = '\n' then none
    else (scanActionCapture rest).map (fun p => (c :: p.1, p.2))

/-- The literal the action regex begins with. -/
def actionLit : List Char := "action=".toList

/-- Left-to-right non-overlapping scan collecting every capture of the
action-attribute regex: the literal, an opening quote, the lazy capture,
a closing quote. A failed attempt moves one character forward; a
successful one resumes after the whole match. -/
def findActions : Nat → List Char → List String
  | 0, _ => []
  | _, [] => []
  | Nat.succ fuel, cs =>
    match cs with
    | [] => []
    | _ :: rest =>
      if listHasPrefix actionLit cs then
        match cs.drop 7 with
        | q :: r2 =>
          if isQuoteChar q then
            match scanActionCapture r2 with
            | some (cap, r3) => String.mk cap :: findActions fuel r3
            | none => findActions fuel rest
          else findActions fuel rest
        | [] => []
      else findActions fuel rest

/-- Character class of the catch-all submit regex: letters, digits, dot,
hyphen, colon, slash, question mark, ampersand, underscore, equals,
percent. -/
def classX (c : Char) : Bool :=
  c.isAlphanum || c = '.' || c = '-' || c = ':' || c = '/' ||
    c = '?' || c = '&' || c = '_' || c = '=' || c = '%'

/-- The literal inside the catch-all regex. -/
def submitLit : List Char := "submit".toList

/-- Tail class of the catch-all regex: everything but whitespace and
quotes. -/
def tailClass (c : Char) : Bool := !pyIsWs c && c ≠ '"' && c ≠ Char.ofNat 39

/-- Largest split point j between one and the given bound such that the
literal submit follows j characters in, which is the split the greedy
one-or-more class prefix backtracks to first. -/
def bestSplitGo (cs : List Char) : Nat → Option Nat
  | 0 => none
  | Nat.succ j =>
    if listHasPrefix submitLit (cs.drop (j + 1)) then some (j + 1)
    else bestSplitGo cs j

/-- Match of the catch-all regex anchored at the start of the input: a
nonempty greedy class run, the literal submit, then a greedy run of the
tail class. -/
def stage3At (cs : List Char) : Option String :=
  let runLen := (cs.takeWhile classX).length
  if runLen = 0 then none
  else
    match bestSplitGo cs runLen with
    | none => none
    | some j =>
      let tail := (cs.drop (j + 6)).takeWhile tailClass
      some (String.mk (cs.take j ++ submitLit ++ tail))

/-- First match of the catch-all regex, scanning start positions left to
right. -/
def stage3Scan : Nat → List Char → Option String
  | 0, _ => none
  | _, [] => none
  | Nat.succ fuel, cs =>
    match cs with
    | [] => none
    | _ :: rest =>
      match stage3At cs with
      | some m => some m
      | none => stage3Scan fuel rest

/-- find_submit from app/solver.py: first any passed link containing
submit case-insensitively, then any action attribute value containing
submit, then the first catch-all regex match; the stage that hits returns
its normalized URL directly. -/
def find_submit (html : String) (links : List String) (base_url : String) : Option String :=
  match links.find? (fun link => containsSub (pyLower link) "submit") with
  | some link => normalize_url base_url link
  | none =>
    match (findActions (html.toList.length + 1) html.toList).find?
        (fun m => containsSub m "submit") with
    | some m => normalize_url base_url m
    | none =>
      match stage3Scan (html.toList.length + 1) html.toList with
      | some m => normalize_url base_url m
      | none => none

/-- Python truthiness of an optional URL string: None and the empty
string are falsy. -/
def urlTruthy : Option String → Bool
  | none => false
  | some s => !s.isEmpty

/-- Outcome of the submission POST issued by solve_single: either the
call raised (network or status error), or it replied, with the body both
as optionally parsed JSON and as raw text. -/
inductive PostOutcome where
  | failed (msg : String)
  | replied (jsonBody : Option J) (text : String)

/-- The Python message of the KeyError raised by a lookup of the answer
key. -/
def keyErrorAnswer : String := squote ++ "answer" ++ squote

/-- Submission phase of solve_single (the code after the executor call):
when a submission URL was found and the executor result has a
submit_payload key, the payload is posted and every return branch builds
its record with the value at the answer key, so a missing answer key
raises the same KeyError out of all three branches, through both nested
exception handlers; otherwise the step is recorded as unsubmitted. The
executor result and the POST outcome stand in for the network and model
collaborators. -/
def solve_single_submit (html : String) (links : List String) (quiz_url : String)
    (result : Jdict) (post : PostOutcome) : Except String Jdict :=
  let submit_url := find_submit html links quiz_url
  if urlTruthy submit_url && (dget result "submit_payload").isSome then
    match dget result "answer" with
    | none => Except.error keyErrorAnswer
    | some ans =>
      match post with
      | .failed e => Except.ok [("submitted", J.bool true), ("error", J.str e), ("answer", ans)]
      | .replied (some body) _ =>
        Except.ok [("submitted", J.bool true), ("response", body), ("answer", ans)]
      | .replied none text =>
        Except.ok [("submitted", J.bool true), ("response", J.str text), ("answer", ans)]
  else
    Except.ok [("submitted", J.bool false), ("result", J.obj result)]

/-!
Chain driver from app/solver.py: solve_quiz_chain, with solve_single
abstracted as an oracle from the step index and current URL value to a
returned step dict or a raised exception message.
-/

/-- Whether an optional value is exactly the Python False singleton, as
the identity test against False. -/
def isFalseLit : Option J → Bool
  | some (J.bool false) => true
  | _ => false

/-- Next-URL extraction and stop decision of one loop iteration: when the
step has a dict-shaped response field, the next URL is its url value
(None when absent); the loop breaks when the response marks the answer
explicitly False with a falsy next URL, and also whenever the next URL is
falsy; only a truthy next URL continues the chain. Any other response
shape leaves the next URL as None and stops. -/
def chainNext (step : Jdict) : Option J :=
  match dget step "response" with
  | some (J.obj r) =>
    let nextUrl := (dget r "url").getD J.null
    if isFalseLit (dget r "correct") && !nextUrl.truthy then none
    else if nextUrl.truthy then some nextUrl else none
  | _ => none

/-- The oracle standing in for solve_single: per step index and current
URL value, either a returned dict or a raised exception message. -/
abbrev StepOracle : Type := Nat → J → Except String Jdict

/-- The step dict of one iteration: the dict solve_single returned, or
the error dict built from the caught exception message. -/
def chainStepDict (solver : StepOracle) (i : Nat) (u : J) : Jdict :=
  match solver i u with
  | Except.ok d => d
  | Except.error e => [("error", J.str e)]

/-- The trace record appended for one iteration. -/
def chainEntry (solver : StepOracle) (i : Nat) (u : J) : Jdict :=
  [("url", u), ("result", J.obj (chainStepDict solver i u))]

/-- Loop of solve_quiz_chain: at each remaining step the solver runs (a
raised exception becoming an error dict), the step is appended to the
trace as a record with the url and result keys, and the loop continues at
the extracted next URL or stops. -/
def chainFrom (solver : StepOracle) : Nat → Nat → J → List Jdict
  | 0, _, _ => []
  | Nat.succ fuel, i, current =>
    match chainNext (chainStepDict solver i current) with
    | none => [chainEntry solver i current]
    | some nxt => chainEntry solver i current :: chainFrom solver fuel (i + 1) nxt

/-- solve_quiz_chain from app/solver.py: twelve iterations at most,
starting from the given URL. -/
def solve_quiz_chain (solver : StepOracle) (url : J) : List Jdict :=
  chainFrom solver 12 0 url

/-!
Service endpoint from app/main.py, with the solver run abstracted as its
outcome: completion with a trace, a timeout, or a raised error.
-/

/-- The request payload after body validation. -/
structure QuizPayload where
  email : String
  secret : String
  url : String

/-- Outcome of running the chain driver under the timeout. -/
inductive ChainOutcome where
  | completed (trace : List Jdict)
  | timedOut
  | failed (msg : String)

/-- quiz_endpoint from app/main.py: a 403 when the caller secret differs
from the configured one (absent configuration never matching), a 400 when
the url is empty, otherwise always a 200 whose body carries the ok,
timeout or error status discriminator. The result is the HTTP status code
and the JSON body. -/
def quiz_endpoint (cfgSecret : Option String) (payload : QuizPayload)
    (outcome : ChainOutcome) : Nat × J :=
  if some payload.secret ≠ cfgSecret then
    (403, J.obj [("detail", J.str "Invalid secret")])
  else if payload.url = "" then
    (400, J.obj [("detail", J.str "Missing url field")])
  else
    match outcome with
    | .timedOut => (200, J.obj [("status", J.str "timeout"), ("detail", J.str "Solver timed out")])
    | .failed e => (200, J.obj [("status", J.str "error"), ("detail", J.str e)])
    | .completed tr => (200, J.obj [("status", J.str "ok"), ("result", J.arr (tr.map J.obj))])

/-!
Helper lemmas about the chain driver.
-/

/-- Unfolding of one loop iteration. -/
theorem chainFrom_succ (solver : StepOracle) (fuel i : Nat) (u : J) :
    chainFrom solver (fuel + 1) i u =
      match chainNext (chainStepDict solver i u) with
      | none => [chainEntry solver i u]
      | some nxt => chainEntry solver i u :: chainFrom solver fuel (i + 1) nxt := rfl

/-- The top-level chain is the loop with twelve iterations of fuel. -/
theorem solve_quiz_chain_unfold (solver : StepOracle) (url : J) :
    solve_quiz_chain solver url = chainFrom solver (11 + 1) 0 url := rfl

/-- The step dict under a returned step. -/
theorem chainStepDict_ok (solver : StepOracle) (i : Nat) (u : J) (d : Jdict)
    (h : solver i u = Except.ok d) : chainStepDict solver i u = d := by
  simp [chainStepDict, h]

/-- The step dict under a raised step. -/
theorem chainStepDict_error (solver : StepOracle) (i : Nat) (u : J) (e : String)
    (h : solver i u = Except.error e) :
    chainStepDict solver i u = [("error", J.str e)] := by
  simp [chainStepDict, h]

/-- An error step dict has no response key, hence no next URL. -/
theorem chainNext_error_dict (e : String) : chainNext [("error", J.str e)] = none := rfl

/-- The trace never exceeds the remaining fuel. -/
theorem chainFrom_length_le (solver : StepOracle) :
    ∀ (fuel i : Nat) (u : J), (chainFrom solver fuel i u).length ≤ fuel := by
  intro fuel
  induction fuel with
  | zero => intro i u; simp [chainFrom]
  | succ n ih =>
    intro i u
    rw [chainFrom_succ]
    cases chainNext (chainStepDict solver i u) with
    | none => simp
    | some nxt =>
      simpa using ih (i + 1) nxt

/-- With positive fuel the loop always appends at least the current
step. -/
theorem chainFrom_ne_nil (solver : StepOracle) (fuel i : Nat) (u : J) (h : 0 < fuel) :
    chainFrom solver fuel i u ≠ [] := by
  rcases fuel with - | n
  · omega
  · rw [chainFrom_succ]
    cases chainNext (chainStepDict solver i u) <;> simp

/-- With positive fuel the first trace record carries the starting URL. -/
theorem chainFrom_head (solver : StepOracle) (fuel i : Nat) (u : J) (h : 0 < fuel) :
    ∃ r rest, chainFrom solver fuel i u = [("url", u), ("result", J.obj r)] :: rest := by
  rcases fuel with - | n
  · omega
  · rw [chainFrom_succ]
    cases chainNext (chainStepDict solver i u) with
    | none => exact ⟨chainStepDict solver i u, [], rfl⟩
    | some nxt => exact ⟨chainStepDict solver i u, _, rfl⟩

/-- Every trace record is a two-key dict holding the attempted URL and
the step result. -/
theorem chainFrom_shape (solver : StepOracle) :
    ∀ (fuel i : Nat) (u : J) (entry : Jdict), entry ∈ chainFrom solver fuel i u →
      ∃ v r, entry = [("url", v), ("result", J.obj r)] := by
  intro fuel
  induction fuel with
  | zero => intro i u entry h; simp [chainFrom] at h
  | succ n ih =>
    intro i u entry h
    rw [chainFrom_succ] at h
    cases hc : chainNext (chainStepDict solver i u) with
    | none =>
      rw [hc] at h
      simp at h
      exact ⟨u, chainStepDict solver i u, h⟩
    | some nxt =>
      rw [hc] at h
      rcases List.mem_cons.mp h with h1 | h2
      · exact ⟨u, chainStepDict solver i u, h1⟩
      · exact ih (i + 1) nxt entry h2

/-- A solver every one of whose steps returns a response carrying a
truthy url value. -/
def alwaysContinues (solver : StepOracle) : Prop :=
  ∀ (i : Nat) (u : J), ∃ d r v, solver i u = Except.ok d ∧
    dget d "response" = some (J.obj r) ∧ dget r "url" = some v ∧ v.truthy = true

/-- A response with a truthy url value yields that value as the next
URL. -/
theorem chainNext_truthy (d r : Jdict) (v : J)
    (hr : dget d "response" = some (J.obj r)) (hu : dget r "url" = some v)
    (ht : v.truthy = true) : chainNext d = some v := by
  simp [chainNext, hr, hu, ht]

/-- Under a solver that always continues, the loop consumes all its
fuel. -/
theorem chainFrom_length_eq (solver : StepOracle) (h : alwaysContinues solver) :
    ∀ (fuel i : Nat) (u : J), (chainFrom solver fuel i u).length = fuel := by
  intro fuel
  induction fuel with
  | zero => intro i u; simp [chainFrom]
  | succ n ih =>
    intro i u
    rw [chainFrom_succ]
    obtain ⟨d, r, v, hs, hr, hu, ht⟩ := h i u
    rw [chainStepDict_ok solver i u d hs, chainNext_truthy d r v hr hu ht]
    simp [ih (i + 1) v]

/-!
Claim theorems.
-/

/-- Provider oracle whose model text is the numeral three. -/
def c1_api_numeric : List Msg → Except String J := fun _ =>
  Except.ok (J.obj [("choices", J.arr [J.obj [("message", J.obj [("content", J.str "3")])]])])

/-- Provider oracle that raises on every attempt. -/
def c1_api_failing : List Msg → Except String J := fun _ => Except.error "provider down"

/-- C1: llm_json is total in the embedding, and under a provider error on
every attempt it returns the empty mapping, but a model text of the
numeral three is returned by the direct parse stage as the integer three,
which is not a mapping — the run exhibiting the divergence from the claim
(and from the declared dict return annotation of llm_json). -/
theorem c1_llm_json_nonmapping :
    llm_json c1_api_numeric "solve the quiz" = J.num 3
    ∧ (llm_json c1_api_numeric "solve the quiz").isObj = false
    ∧ llm_json c1_api_failing "solve the quiz" = J.obj [] :=
  ⟨rfl, rfl, rfl⟩

/-- C2: the Chain Driver stops with a one-record trace when the first
response is a dict marking correct False without a url key; it continues,
advancing the current URL to X, when that dict also carries url X; and a
response field of any non-dict shape yields no next URL, stopping the
chain after the first step. -/
theorem c2_chain_stop_and_continue :
    (∀ (solver : StepOracle) (url : J) (d r : Jdict),
        solver 0 url = Except.ok d →
        dget d "response" = some (J.obj r) →
        dget r "correct" = some (J.bool false) →
        dget r "url" = none →
        solve_quiz_chain solver url = [[("url", url), ("result", J.obj d)]])
  ∧ (∀ (solver : StepOracle) (url : J) (d r : Jdict),
        solver 0 url = Except.ok d →
        dget d "response" = some (J.obj r) →
        dget r "correct" = some (J.bool false) →
        dget r "url" = some (J.str "X") →
        solve_quiz_chain solver url =
          [("url", url), ("result", J.obj d)] :: chainFrom solver 11 1 (J.str "X")
        ∧ chainFrom solver 11 1 (J.str "X") ≠ [])
  ∧ (∀ (solver : StepOracle) (url : J) (d : Jdict),
        solver 0 url = Except.ok d →
        (∀ r, dget d "response" ≠ some (J.obj r)) →
        solve_quiz_chain solver url = [[("url", url), ("result", J.obj d)]]) := by
  refine ⟨?_, ?_, ?_⟩
  · intro solver url d r hs hr hc hu
    have hn : chainNext d = none := by
      simp [chainNext, hr, hc, hu, isFalseLit, J.truthy]
    simp only [solve_quiz_chain_unfold, chainFrom_succ, chainEntry,
      chainStepDict_ok solver 0 url d hs, hn]
  · intro solver url d r hs hr hc hu
    have ht : J.truthy (J.str "X") = true := rfl
    have hn : chainNext d = some (J.str "X") := chainNext_truthy d r (J.str "X") hr hu ht
    constructor
    · simp only [solve_quiz_chain_unfold, chainFrom_succ, chainEntry,
        chainStepDict_ok solver 0 url d hs, hn]
    · exact chainFrom_ne_nil solver 11 1 (J.str "X") (by omega)
  · intro solver url d hs hshape
    have hn : chainNext d = none := by
      unfold chainNext
      cases hresp : dget d "response" with
      | none => rfl
      | some v =>
        cases v with
        | obj r => exact absurd hresp (hshape r)
        | null => rfl
        | bool b => rfl
        | num n => rfl
        | numF lit => rfl
        | str s => rfl
        | arr xs => rfl
    simp only [solve_quiz_chain_unfold, chainFrom_succ, chainEntry,
      chainStepDict_ok solver 0 url d hs, hn]

/-- Solver for the stop case of the C2 witness. -/
def c2_wit_solver_a : StepOracle := fun _ _ =>
  Except.ok [("response", J.obj [("correct", J.bool false)])]

/-- Solver for the continue case of the C2 witness. -/
def c2_wit_solver_b : StepOracle := fun _ _ =>
  Except.ok [("response", J.obj [("correct", J.bool false), ("url", J.str "X")])]

/-- Solver for the non-dict-response case of the C2 witness. -/
def c2_wit_solver_c : StepOracle := fun _ _ => Except.ok [("response", J.str "nope")]

/-- Concrete instantiation of the C2 theorem. -/
theorem c2_witness :
    solve_quiz_chain c2_wit_solver_a (J.str "http://s/")
      = [[("url", J.str "http://s/"),
          ("result", J.obj [("response", J.obj [("correct", J.bool false)])])]]
    ∧ solve_quiz_chain c2_wit_solver_b (J.str "http://s/")
      = [("url", J.str "http://s/"),
          ("result", J.obj [("response", J.obj [("correct", J.bool false), ("url", J.str "X")])])]
          :: chainFrom c2_wit_solver_b 11 1 (J.str "X")
    ∧ solve_quiz_chain c2_wit_solver_c (J.str "http://s/")
      = [[("url", J.str "http://s/"), ("result", J.obj [("response", J.str "nope")])]] :=
  ⟨c2_chain_stop_and_continue.1 c2_wit_solver_a (J.str "http://s/") _ _ rfl rfl rfl rfl,
   (c2_chain_stop_and_continue.2.1 c2_wit_solver_b (J.str "http://s/") _ _ rfl rfl rfl rfl).1,
   c2_chain_stop_and_continue.2.2 c2_wit_solver_c (J.str "http://s/") _ rfl
     (by intro r h; simp [dget] at h)⟩

/-- Solver whose every response contains a url key holding the empty
string. -/
def c3_solver_emptyurl : StepOracle := fun _ _ =>
  Except.ok [("response", J.obj [("url", J.str "")])]

/-- C3 counterexample: a solver whose every response contains a url field
(holding the empty string, which Python treats as falsy) stops the chain
after a single step, so a response merely containing a url field does not
drive the loop to twelve steps. -/
theorem c3_counterexample :
    solve_quiz_chain c3_solver_emptyurl (J.str "http://start/")
      = [[("url", J.str "http://start/"),
          ("result", J.obj [("response", J.obj [("url", J.str "")])])]] := rfl

/-- C3 (amended): when every step returns a response whose url value is
truthy, the loop runs exactly twelve steps, and in every run the trace
never exceeds twelve records. -/
theorem c3_cap_twelve :
    (∀ solver : StepOracle, alwaysContinues solver →
        ∀ url : J, (solve_quiz_chain solver url).length = 12)
  ∧ (∀ (solver : StepOracle) (url : J), (solve_quiz_chain solver url).length ≤ 12) := by
  constructor
  · intro solver h url
    exact chainFrom_length_eq solver h 12 0 url
  · intro solver url
    exact chainFrom_length_le solver 12 0 url

/-- Solver that always sends the chain back to one fixed URL. -/
def c3_wit_solver : StepOracle := fun _ _ =>
  Except.ok [("response", J.obj [("url", J.str "http://fixed/")])]

/-- Concrete instantiation of the amended C3 theorem. -/
theorem c3_cap_twelve_witness :
    (solve_quiz_chain c3_wit_solver (J.str "http://fixed/")).length = 12 :=
  c3_cap_twelve.1 c3_wit_solver
    (fun _ _ => ⟨[("response", J.obj [("url", J.str "http://fixed/")])],
      [("url", J.str "http://fixed/")], J.str "http://fixed/", rfl, rfl, rfl, rfl⟩)
    (J.str "http://fixed/")

/-- C4: an exception raised by a step is caught, recorded in the trace as
a record whose result is the error dict carrying the message, treated as
having no next URL, and the chain stops there without propagating; stated
for any reached position of the loop and instantiated at the chain
entry. -/
theorem c4_exception_captured :
    (∀ (solver : StepOracle) (fuel i : Nat) (current : J) (e : String),
        solver i current = Except.error e →
        chainFrom solver (fuel + 1) i current
          = [[("url", current), ("result", J.obj [("error", J.str e)])]])
  ∧ (∀ (solver : StepOracle) (url : J) (e : String),
        solver 0 url = Except.error e →
        solve_quiz_chain solver url
          = [[("url", url), ("result", J.obj [("error", J.str e)])]]) := by
  have main : ∀ (solver : StepOracle) (fuel i : Nat) (current : J) (e : String),
      solver i current = Except.error e →
      chainFrom solver (fuel + 1) i current
        = [[("url", current), ("result", J.obj [("error", J.str e)])]] := by
    intro solver fuel i current e hs
    simp only [chainFrom_succ, chainEntry, chainStepDict_error solver i current e hs,
      chainNext_error_dict]
  exact ⟨main, fun solver url e hs => by
    rw [solve_quiz_chain_unfold]
    exact main solver 11 0 url e hs⟩

/-- Solver raising a network failure at every step. -/
def c4_wit_solver : StepOracle := fun _ _ => Except.error "boom"

/-- Concrete instantiation of the C4 theorem. -/
theorem c4_witness :
    solve_quiz_chain c4_wit_solver (J.str "http://s/")
      = [[("url", J.str "http://s/"), ("result", J.obj [("error", J.str "boom")])]] :=
  c4_exception_captured.2 c4_wit_solver (J.str "http://s/") "boom" rfl

/-- C5: find_submit tries its three stages in order and returns the first
hit — a link containing submit resolves against the base, a form action
containing submit resolves against the base, a raw URL-like token
containing submit is returned, and none of these yields no match. -/
theorem c5_find_submit_stages :
    find_submit "<a href=\"/do-submit\">here</a>" ["/do-submit"] "http://host/page"
      = some "http://host/do-submit"
    ∧ find_submit "<form action=\"/s/submit\">" [] "http://host/page"
      = some "http://host/s/submit"
    ∧ find_submit "go to http://x/y/submitnow?id=1 now" [] "http://host/page"
      = some "http://x/y/submitnow?id=1"
    ∧ find_submit "<p>nothing here</p>" ["contact"] "http://host/page" = none :=
  ⟨rfl, rfl, rfl, rfl⟩

/-- Unfolding of one retry-loop attempt. -/
theorem askAttempts_succ (api : List Msg → Except String J) (fuel : Nat) (messages : List Msg) :
    askAttempts api (fuel + 1) messages =
      match attemptOutcome api messages with
      | Except.ok out =>
        if pyStrip out = "" then askAttempts api fuel (messages ++ [nudgeMsg]) else out
      | Except.error _ => askAttempts api fuel (messages ++ [nudgeMsg]) := rfl

/-- An attempt that does not return: the provider raised, or the
candidate text strips to nothing. -/
def attemptBlank (api : List Msg → Except String J) (messages : List Msg) : Prop :=
  (∃ e, attemptOutcome api messages = Except.error e)
  ∨ (∃ out, attemptOutcome api messages = Except.ok out ∧ pyStrip out = "")

/-- A blank attempt appends the nudge turn and passes to the next
attempt. -/
theorem askAttempts_blank_step (api : List Msg → Except String J) (fuel : Nat)
    (messages : List Msg) (h : attemptBlank api messages) :
    askAttempts api (fuel + 1) messages = askAttempts api fuel (messages ++ [nudgeMsg]) := by
  rw [askAttempts_succ]
  rcases h with ⟨e, he⟩ | ⟨out, ho, hb⟩
  · simp only [he]
  · simp only [ho]
    rw [if_pos hb]

/-- Provider response whose candidate text is a single space. -/
def c6_resp_blank : J :=
  J.obj [("choices", J.arr [J.obj [("message", J.obj [("content", J.str " ")])]])]

/-- Provider oracle answering the blank candidate on every attempt. -/
def c6_api_blank : List Msg → Except String J := fun _ => Except.ok c6_resp_blank

/-- C6 counterexample: a provider returning the nonempty one-character
candidate text of a single space never has that candidate returned — the
code tests the stripped text, treats the attempt as failed, and after
three attempts yields the literal two-character brace text — so a
candidate being nonempty does not suffice for an immediate return. -/
theorem c6_counterexample :
    extract_out c6_resp_blank = Except.ok " "
    ∧ ask_llm_for_answer c6_api_blank "solve" = "\x7b\x7d" :=
  ⟨rfl, rfl⟩

/-- C6 (amended): the retry loop makes at most three attempts over one
accumulating conversation; a candidate that is nonempty after stripping
whitespace is returned immediately and unmodified; a raised invocation or
a blank candidate appends the user nudge turn to the running history, so
the second and third attempts see one and two nudge turns respectively;
and three blank attempts yield the literal two-character brace text. -/
theorem c6_retry_accumulating :
    (∀ (api : List Msg → Except String J) (prompt out : String),
        attemptOutcome api (initMessages prompt) = Except.ok out →
        pyStrip out ≠ "" →
        ask_llm_for_answer api prompt = out)
  ∧ (∀ (api : List Msg → Except String J) (prompt out : String),
        attemptBlank api (initMessages prompt) →
        attemptBlank api (initMessages prompt ++ [nudgeMsg]) →
        attemptOutcome api (initMessages prompt ++ [nudgeMsg] ++ [nudgeMsg])
          = Except.ok out →
        pyStrip out ≠ "" →
        ask_llm_for_answer api prompt = out)
  ∧ (∀ (api : List Msg → Except String J) (prompt : String),
        attemptBlank api (initMessages prompt) →
        attemptBlank api (initMessages prompt ++ [nudgeMsg]) →
        attemptBlank api (initMessages prompt ++ [nudgeMsg] ++ [nudgeMsg]) →
        ask_llm_for_answer api prompt = "\x7b\x7d") := by
  refine ⟨?_, ?_, ?_⟩
  · intro api prompt out hok hne
    show askAttempts api (2 + 1) (initMessages prompt) = out
    rw [askAttempts_succ]
    simp only [hok]
    rw [if_neg hne]
  · intro api prompt out h1 h2 hok hne
    show askAttempts api (2 + 1) (initMessages prompt) = out
    rw [askAttempts_blank_step api 2 _ h1, askAttempts_blank_step api 1 _ h2,
      askAttempts_succ]
    simp only [hok]
    rw [if_neg hne]
  · intro api prompt h1 h2 h3
    show askAttempts api (2 + 1) (initMessages prompt) = "\x7b\x7d"
    rw [askAttempts_blank_step api 2 _ h1, askAttempts_blank_step api 1 _ h2,
      askAttempts_blank_step api 0 _ h3]
    rfl

/-- Provider oracle that fails until the conversation has accumulated two
nudge turns, then answers. -/
def c6_wit_api : List Msg → Except String J := fun msgs =>
  if msgs.length ≥ 4 then
    Except.ok (J.obj [("choices",
      J.arr [J.obj [("message", J.obj [("content", J.str "late answer")])]])])
  else Except.error "early failure"

/-- Concrete instantiation of the amended C6 theorem: the first two
attempts raise, the third sees the twice-nudged history and its nonblank
candidate is returned. -/
theorem c6_retry_witness : ask_llm_for_answer c6_wit_api "solve" = "late answer" :=
  c6_retry_accumulating.2.1 c6_wit_api "solve" "late answer"
    (Or.inl ⟨"early failure", rfl⟩) (Or.inl ⟨"early failure", rfl⟩) rfl
    (by decide)

/-- C7: the endpoint answers 403 on a secret mismatch (an unconfigured
secret never matching), 400 on an empty url, and otherwise always 200
with a body carrying the ok, timeout or error discriminator — solver
failures never surface as a 5xx. -/
theorem c7_endpoint_statuses :
    (∀ (cfg : Option String) (p : QuizPayload) (outcome : ChainOutcome),
        some p.secret ≠ cfg →
        quiz_endpoint cfg p outcome = (403, J.obj [("detail", J.str "Invalid secret")]))
  ∧ (∀ (cfg : Option String) (p : QuizPayload) (outcome : ChainOutcome),
        some p.secret = cfg → p.url = "" →
        quiz_endpoint cfg p outcome = (400, J.obj [("detail", J.str "Missing url field")]))
  ∧ (∀ (cfg : Option String) (p : QuizPayload) (tr : List Jdict),
        some p.secret = cfg → p.url ≠ "" →
        quiz_endpoint cfg p (ChainOutcome.completed tr)
          = (200, J.obj [("status", J.str "ok"), ("result", J.arr (tr.map J.obj))]))
  ∧ (∀ (cfg : Option String) (p : QuizPayload),
        some p.secret = cfg → p.url ≠ "" →
        quiz_endpoint cfg p ChainOutcome.timedOut
          = (200, J.obj [("status", J.str "timeout"), ("detail", J.str "Solver timed out")]))
  ∧ (∀ (cfg : Option String) (p : QuizPayload) (e : String),
        some p.secret = cfg → p.url ≠ "" →
        quiz_endpoint cfg p (ChainOutcome.failed e)
          = (200, J.obj [("status", J.str "error"), ("detail", J.str e)])) := by
  refine ⟨?_, ?_, ?_, ?_, ?_⟩
  · intro cfg p outcome h
    simp only [quiz_endpoint]
    rw [if_pos h]
  · intro cfg p outcome h1 h2
    simp only [quiz_endpoint]
    rw [if_neg (fun hne => hne h1), if_pos h2]
  · intro cfg p tr h1 h2
    simp only [quiz_endpoint]
    rw [if_neg (fun hne => hne h1), if_neg h2]
  · intro cfg p h1 h2
    simp only [quiz_endpoint]
    rw [if_neg (fun hne => hne h1), if_neg h2]
  · intro cfg p e h1 h2
    simp only [quiz_endpoint]
    rw [if_neg (fun hne => hne h1), if_neg h2]

/-- Concrete instantiation of the C7 theorem across its branches. -/
theorem c7_witness :
    quiz_endpoint (some "sec") ⟨"a@b", "wrong", "http://u"⟩ ChainOutcome.timedOut
      = (403, J.obj [("detail", J.str "Invalid secret")])
    ∧ quiz_endpoint (some "sec") ⟨"a@b", "sec", ""⟩ ChainOutcome.timedOut
      = (400, J.obj [("detail", J.str "Missing url field")])
    ∧ quiz_endpoint (some "sec") ⟨"a@b", "sec", "http://u"⟩ (ChainOutcome.completed [])
      = (200, J.obj [("status", J.str "ok"), ("result", J.arr [])])
    ∧ quiz_endpoint (some "sec") ⟨"a@b", "sec", "http://u"⟩ ChainOutcome.timedOut
      = (200, J.obj [("status", J.str "timeout"), ("detail", J.str "Solver timed out")])
    ∧ quiz_endpoint (some "sec") ⟨"a@b", "sec", "http://u"⟩ (ChainOutcome.failed "KeyError")
      = (200, J.obj [("status", J.str "error"), ("detail", J.str "KeyError")]) :=
  ⟨c7_endpoint_statuses.1 (some "sec") ⟨"a@b", "wrong", "http://u"⟩ ChainOutcome.timedOut
      (by decide),
   c7_endpoint_statuses.2.1 (some "sec") ⟨"a@b", "sec", ""⟩ ChainOutcome.timedOut rfl rfl,
   c7_endpoint_statuses.2.2.1 (some "sec") ⟨"a@b", "sec", "http://u"⟩ [] rfl (by decide),
   c7_endpoint_statuses.2.2.2.1 (some "sec") ⟨"a@b", "sec", "http://u"⟩ rfl (by decide),
   c7_endpoint_statuses.2.2.2.2 (some "sec") ⟨"a@b", "sec", "http://u"⟩ "KeyError" rfl
      (by decide)⟩

/-- C8: repair_json_string recovers a trailing comma, bare identifier
keys, and their combination with embedded control characters, into the
expected mappings. -/
theorem c8_repair_recoveries :
    repair_json_string "\x7b\"a\":1,\x7d" = some (J.obj [("a", J.num 1)])
    ∧ repair_json_string "\x7ba: 1, b: \"x\"\x7d"
      = some (J.obj [("a", J.num 1), ("b", J.str "x")])
    ∧ repair_json_string "\x7ba: 1,\n b: \"x\",\t\x7d"
      = some (J.obj [("a", J.num 1), ("b", J.str "x")]) :=
  ⟨rfl, rfl, rfl⟩

/-- C9: when a submission URL is found and the executor result carries a
submit_payload but no answer key, every return branch of the submission
path dereferences the answer key, so solve_single raises the KeyError out
of both exception handlers; the Chain Driver then records the step as an
error record and stops. -/
theorem c9_missing_answer_raises :
    (∀ (html : String) (links : List String) (quiz_url : String) (result : Jdict)
        (post : PostOutcome),
        urlTruthy (find_submit html links quiz_url) = true →
        (dget result "submit_payload").isSome = true →
        dget result "answer" = none →
        solve_single_submit html links quiz_url result post = Except.error keyErrorAnswer)
  ∧ (∀ (solver : StepOracle) (url : J),
        solver 0 url = Except.error keyErrorAnswer →
        solve_quiz_chain solver url
          = [[("url", url), ("result", J.obj [("error", J.str keyErrorAnswer)])]]) := by
  constructor
  · intro html links quiz_url result post h1 h2 h3
    simp [solve_single_submit, h1, h2, h3]
  · intro solver url hs
    rw [solve_quiz_chain_unfold]
    simp only [chainFrom_succ, chainEntry,
      chainStepDict_error solver 0 url keyErrorAnswer hs, chainNext_error_dict]

/-- Solver standing in for a solve_single that raised the answer
KeyError. -/
def c9_wit_solver : StepOracle := fun _ _ => Except.error keyErrorAnswer

/-- Concrete instantiation of the C9 theorem: a page with a submit form
action, an executor result having submit_payload but no answer key, and a
failing POST, followed by the chain recording of the raised KeyError. -/
theorem c9_witness :
    solve_single_submit "<form action=\"/s/submit\">" [] "http://host/page"
        [("submit_payload", J.obj [])] (PostOutcome.failed "refused")
      = Except.error keyErrorAnswer
    ∧ solve_quiz_chain c9_wit_solver (J.str "http://s/")
      = [[("url", J.str "http://s/"), ("result", J.obj [("error", J.str keyErrorAnswer)])]] :=
  ⟨c9_missing_answer_raises.1 "<form action=\"/s/submit\">" [] "http://host/page"
      [("submit_payload", J.obj [])] (PostOutcome.failed "refused") rfl rfl rfl,
   c9_missing_answer_raises.2 c9_wit_solver (J.str "http://s/") rfl⟩

/-- C10: for every solver behavior and start URL the trace is nonempty,
every record is a dict with exactly the url and result keys, and the
first record carries the start URL as the attempted URL. -/
theorem c10_trace_shape :
    ∀ (solver : StepOracle) (url : J),
      1 ≤ (solve_quiz_chain solver url).length
      ∧ (∀ entry ∈ solve_quiz_chain solver url,
          ∃ v r, entry = [("url", v), ("result", J.obj r)])
      ∧ (∃ r rest, solve_quiz_chain solver url
          = [("url", url), ("result", J.obj r)] :: rest) := by
  intro solver url
  refine ⟨?_, ?_, ?_⟩
  · obtain ⟨r, rest, h⟩ := chainFrom_head solver 12 0 url (by omega)
    show 1 ≤ (chainFrom solver 12 0 url).length
    rw [h]
    simp
  · exact fun entry he => chainFrom_shape solver 12 0 url entry he
  · exact chainFrom_head solver 12 0 url (by omega)

/-- Solver for the C10 witness, returning an unsubmitted step. -/
def c10_wit_solver : StepOracle := fun _ _ => Except.ok [("submitted", J.bool false)]

/-- Concrete instantiation of the C10 theorem. -/
theorem c10_witness :
    1 ≤ (solve_quiz_chain c10_wit_solver (J.str "http://s/")).length :=
  (c10_trace_shape c10_wit_solver (J.str "http://s/")).1

end QuizSolver
